import Mathlib

/-!
Verification of the saas-core token-verification library.

The definitions below are a shallow embedding of the Python sources:
  src/saas_core/exceptions.py  — error taxonomy
  src/saas_core/config.py      — AuthConfig (pydantic BaseSettings) and its validators
  src/saas_core/auth.py        — JWKS key cache and verify_user

Machine integers do not overflow in the modelled ranges, so timestamps and
TTLs are Int. Python attribute access on the pydantic model is embedded as
a lookup that can fail with AttributeError (pydantic models raise
AttributeError for undeclared attributes); this matters because auth.py
reads several configuration attributes that config.py never declares.
-/

namespace SaasCore

/-- Error taxonomy from src/saas_core/exceptions.py, together with the
Python built-ins that can escape the library: AttributeError (reading an
undeclared attribute of a pydantic model), TypeError, and the pydantic
ValidationError raised when a field validator rejects a value.
EmailNotVerifiedError is a subclass of AuthenticationError in the source;
the class hierarchy is modelled by the predicates below. -/
inductive PyError where
  | configurationError (msg : String)
  | authenticationError (msg : String)
  | emailNotVerifiedError (msg : String)
  | attributeError (attr : String)
  | typeError (msg : String)
  | validationError (msg : String)
  deriving Repr, DecidableEq

/-- Membership in the exception taxonomy of section 7 of the design:
ConfigurationError, AuthenticationError, EmailNotVerifiedError. -/
def PyError.isTaxonomyKind : PyError → Bool
  | .configurationError _ => true
  | .authenticationError _ => true
  | .emailNotVerifiedError _ => true
  | .attributeError _ => false
  | .typeError _ => false
  | .validationError _ => false

/-- `isinstance(e, AuthenticationError)`: true for AuthenticationError and
its subclass EmailNotVerifiedError (exceptions.py lines 12-34). -/
def PyError.isAuthenticationFailure : PyError → Bool
  | .authenticationError _ => true
  | .emailNotVerifiedError _ => true
  | _ => false

/-- Python truthiness of an optional string: None and the empty string are
falsy, every other string is truthy. -/
def optStrTruthy : Option String → Bool
  | Option.none => false
  | some s => !(s = "")

/-- A Python string together with whether `json.loads` accepts it. The JSON
grammar itself is outside the embedding; validity is carried as a field so
the validator in config.py lines 68-81 can be modelled faithfully. -/
structure JsonStr where
  raw : String
  valid : Bool
  deriving Repr, DecidableEq

/-- Truthiness of the optional credentials-JSON field. -/
def optJsonTruthy : Option JsonStr → Bool
  | Option.none => false
  | some j => !(j.raw = "")

/-- AuthConfig exactly as declared in src/saas_core/config.py lines 18-56:
the three optional credential fields and require_email_verified
(default True). No other field is declared; the model_config uses
extra="ignore", so undeclared attributes are simply absent. -/
structure AuthConfigSrc where
  firebase_credentials_path : Option String := Option.none
  firebase_credentials_json : Option JsonStr := Option.none
  google_project_id : Option String := Option.none
  require_email_verified : Bool := true
  deriving Repr, DecidableEq

/-- A Python attribute value on the configuration object. -/
inductive PyVal where
  | str (s : String)
  | boolean (b : Bool)
  | pyNone
  | jsonv (j : JsonStr)
  | intv (n : Int)
  deriving Repr, DecidableEq

/-- Attribute access on the src AuthConfig: the four declared fields
resolve to their values; any other name raises AttributeError (pydantic
BaseSettings with extra="ignore" neither stores nor exposes extras).
In particular jwks_cache_ttl, jwt_leeway, issuer_url, audience and
GOOGLE_JWKS_ENDPOINT, which auth.py reads, all raise AttributeError. -/
def AuthConfigSrc.getattr (c : AuthConfigSrc) (name : String) : Except PyError PyVal :=
  if name = "firebase_credentials_path" then
    .ok (match c.firebase_credentials_path with
          | some s => .str s
          | Option.none => .pyNone)
  else if name = "firebase_credentials_json" then
    .ok (match c.firebase_credentials_json with
          | some j => .jsonv j
          | Option.none => .pyNone)
  else if name = "google_project_id" then
    .ok (match c.google_project_id with
          | some s => .str s
          | Option.none => .pyNone)
  else if name = "require_email_verified" then
    .ok (.boolean c.require_email_verified)
  else
    .error (.attributeError name)

/-- The parse_boolean field validator, config.py lines 58-66: a string is
true exactly when it lowercases to one of "true", "1", "yes", "on". -/
def parse_boolean_str (s : String) : Bool :=
  s.toLower = "true" || s.toLower = "1" || s.toLower = "yes" || s.toLower = "on"

/-- Construction of AuthConfig from explicit field values, config.py:
first the parse_json_string validator (lines 68-81) rejects a credentials
JSON string that json.loads does not accept (pydantic turns the
ValueError into a ValidationError); then model_post_init (lines 83-91)
raises ConfigurationError when none of the three credential fields is
truthy. Construction succeeds otherwise. -/
def AuthConfig.construct (path : Option String) (js : Option JsonStr)
    (pid : Option String) (req : Bool) : Except PyError AuthConfigSrc :=
  match js with
  | some j =>
    if j.valid then
      if !(optStrTruthy path) && !(optJsonTruthy (some j)) && !(optStrTruthy pid) then
        .error (.configurationError
          "One of the following must be set: SAAS_CORE_FIREBASE_CREDENTIALS_PATH, SAAS_CORE_FIREBASE_CREDENTIALS_JSON, or SAAS_CORE_GOOGLE_PROJECT_ID")
      else
        .ok { firebase_credentials_path := path, firebase_credentials_json := some j,
              google_project_id := pid, require_email_verified := req }
    else
      .error (.validationError "SAAS_CORE_FIREBASE_CREDENTIALS_JSON must be valid JSON")
  | Option.none =>
    if !(optStrTruthy path) && !(optStrTruthy pid) then
      .error (.configurationError
        "One of the following must be set: SAAS_CORE_FIREBASE_CREDENTIALS_PATH, SAAS_CORE_FIREBASE_CREDENTIALS_JSON, or SAAS_CORE_GOOGLE_PROJECT_ID")
    else
      .ok { firebase_credentials_path := path, firebase_credentials_json := Option.none,
            google_project_id := pid, require_email_verified := req }

/-- get_config, config.py lines 108-128: returns the cached instance when
one exists; otherwise constructs one, wrapping any construction failure
into ConfigurationError. Returns the configuration together with the new
value of the module-global singleton. -/
def get_config (cached : Option AuthConfigSrc)
    (construction : Except PyError AuthConfigSrc) :
    Except PyError (AuthConfigSrc × Option AuthConfigSrc) :=
  match cached with
  | some c => .ok (c, some c)
  | Option.none =>
    match construction with
    | .ok c => .ok (c, some c)
    | .error _ => .error (.configurationError "Failed to load configuration")

/-- Modelled from the spec: the verification settings that auth.py and the
tests read from the configuration but src/saas_core/config.py never
declares — jwks_cache_ttl, jwt_leeway, issuer_url and audience (the JWKS
endpoint URL is absorbed into the network model below). Section 6 of the
design fixes their meaning: cache TTL in seconds, positive integer,
default 3600; clock leeway in seconds, non-negative integer, default 60;
expected issuer URL and audience strings. require_email_verified is
carried over from the declared source field (default True). -/
structure AuthConfig where
  require_email_verified : Bool := true
  jwks_cache_ttl : Int := 3600
  jwt_leeway : Int := 60
  issuer_url : String
  audience : String
  deriving Repr, DecidableEq

/-! ## Tokens and claims (auth.py data) -/

/-- The decoded JWT payload: the provider-defined claims that auth.py and
the modelled jwt.decode read. Absent claims are `Option.none`. -/
structure Claims where
  sub : Option String := Option.none
  email : Option String := Option.none
  email_verified : Option Bool := Option.none
  auth_time : Option Int := Option.none
  iss : Option String := Option.none
  aud : Option String := Option.none
  exp : Option Int := Option.none
  iat : Option Int := Option.none
  nbf : Option Int := Option.none
  deriving Repr, DecidableEq

/-- The JWT header as read by _decode_token_header: only the key id is
used by auth.py. A missing kid is `Option.none`. -/
structure TokenHeader where
  kid : Option String := Option.none
  deriving Repr, DecidableEq

/-- A structurally well-formed JWT. RS256 cryptography is modelled
symbolically: `signedWith` is the PEM of the unique public key against
which the RS256 signature verifies (verification with any other key
fails, and signatures cannot be forged). -/
structure Token where
  header : TokenHeader
  payload : Claims
  signedWith : String
  deriving Repr, DecidableEq

/-- The raw argument of verify_user: the literal Python string (used only
by the emptiness check at auth.py line 154) paired with the result of
decoding it as a JWT — `Option.none` when jwt.get_unverified_header
raises DecodeError (auth.py lines 91-95). -/
structure RawToken where
  text : String
  parsed : Option Token
  deriving Repr, DecidableEq

/-- _decode_token_header, auth.py lines 79-95: return the header, or
AuthenticationError when the token is not decodable. -/
def decode_token_header (t : RawToken) : Except PyError TokenHeader :=
  match t.parsed with
  | some tok => .ok tok.header
  | Option.none => .error (.authenticationError "Invalid token format")

/-! ## KeyStore: JWKS fetching and the module-level key cache -/

/-- One entry of the JWKS endpoint response: a PEM X.509 certificate,
either carrying an extractable public key (whose SubjectPublicKeyInfo
serializes to `pem`) or malformed. -/
inductive Cert where
  | valid (pem : String)
  | malformed
  deriving Repr, DecidableEq

/-- The certificate-to-public-key conversion loop of auth.py lines 52-68:
valid certificates contribute their public key under their key id;
malformed entries are skipped and do not abort the refresh. -/
def convertCerts : List (String × Cert) → List (String × String)
  | [] => []
  | (kid, Cert.valid pem) :: rest => (kid, pem) :: convertCerts rest
  | (_, Cert.malformed) :: rest => convertCerts rest

/-- Python dict lookup by key id over the key mapping. -/
def lookupKey (kid : String) : List (String × String) → Option String
  | [] => Option.none
  | (k, v) :: rest => if k = kid then some v else lookupKey kid rest

/-- The value stored in _key_cache under "google_public_keys",
auth.py lines 70-74: the converted key mapping plus the fetch time. -/
structure CacheEntry where
  keys : List (String × String)
  timestamp : Int
  deriving Repr, DecidableEq

/-- The module-level _key_cache dict of auth.py line 21. Only the single
key "google_public_keys" is ever used, so the dict is an optional entry;
`Option.none` is the empty (or cleared) cache. -/
structure KeyCache where
  entry : Option CacheEntry := Option.none
  deriving Repr, DecidableEq

/-- The external world of one verification call: the current wall clock
and the response of the HTTPS JWKS endpoint (Except.error carries the
httpx.HTTPError message for a timeout, non-2xx or transport failure). -/
structure World where
  now : Int
  jwks : Except String (List (String × Cert))
  deriving Repr

/-- Outcome of get_google_public_keys: the result, the new state of the
module cache, and how many network fetches were performed (0 on a cache
hit, 1 otherwise). -/
structure GetKeysResult where
  result : Except PyError (List (String × String))
  cache : KeyCache
  fetches : Nat
  deriving Repr

/-- The body of get_google_public_keys, auth.py lines 37-76, with the
cache TTL passed in: on a cached entry younger than the TTL return it
with no fetch; otherwise fetch the JWKS endpoint (an HTTP error becomes
AuthenticationError and leaves the cache unchanged), convert the
certificates, and atomically replace the cache entry with the fresh
mapping and timestamp. -/
def get_google_public_keys_core (w : World) (ttl : Int) (st : KeyCache) : GetKeysResult :=
  match st.entry with
  | some cd =>
    if w.now - cd.timestamp < ttl then
      { result := .ok cd.keys, cache := st, fetches := 0 }
    else
      match w.jwks with
      | .error e =>
        { result := .error (.authenticationError ("Failed to fetch Google public keys: " ++ e)),
          cache := st, fetches := 1 }
      | .ok certs =>
        let pk := convertCerts certs
        { result := .ok pk, cache := { entry := some { keys := pk, timestamp := w.now } },
          fetches := 1 }
  | Option.none =>
    match w.jwks with
    | .error e =>
      { result := .error (.authenticationError ("Failed to fetch Google public keys: " ++ e)),
        cache := st, fetches := 1 }
    | .ok certs =>
      let pk := convertCerts certs
      { result := .ok pk, cache := { entry := some { keys := pk, timestamp := w.now } },
        fetches := 1 }

/-- get_google_public_keys, auth.py lines 24-76, over the spec-modelled
configuration: the TTL is the configured jwks_cache_ttl. -/
def get_google_public_keys (w : World) (cfg : AuthConfig) (st : KeyCache) : GetKeysResult :=
  get_google_public_keys_core w cfg.jwks_cache_ttl st

/-- get_google_public_keys over the configuration exactly as declared in
src/saas_core/config.py: line 35 of auth.py reads config.jwks_cache_ttl,
an attribute the src AuthConfig does not declare, so Python raises
AttributeError there. The later arms are written for structural
faithfulness but are unreachable, because getattr never returns a value
for this name on AuthConfigSrc. -/
def get_google_public_keys_src (w : World) (cfg : AuthConfigSrc) (st : KeyCache) : GetKeysResult :=
  match cfg.getattr "jwks_cache_ttl" with
  | .error e => { result := .error e, cache := st, fetches := 0 }
  | .ok (PyVal.intv ttl) => get_google_public_keys_core w ttl st
  | .ok _ =>
    { result := .error (.typeError "jwks_cache_ttl is not a number"),
      cache := st, fetches := 0 }

/-! ## Signature verification and claim validation (PyJWT jwt.decode) -/

/-- The verification options built by _get_verification_options,
auth.py lines 98-118: all checks enabled, RS256 only, with the
configured issuer, audience and leeway. -/
structure VerificationOptions where
  issuer : String
  audience : String
  leeway : Int
  deriving Repr, DecidableEq

/-- _get_verification_options over the spec-modelled configuration. -/
def get_verification_options (cfg : AuthConfig) : VerificationOptions :=
  { issuer := cfg.issuer_url, audience := cfg.audience, leeway := cfg.jwt_leeway }

/-- The exception classes of PyJWT that auth.py lines 190-199 catches.
invalidToken stands for every other InvalidTokenError subclass. -/
inductive JwtError where
  | expiredSignature
  | invalidIssuer
  | invalidAudience
  | invalidSignature
  | invalidToken (msg : String)
  deriving Repr, DecidableEq

/-- Modelled from the spec: PyJWT jwt.decode with the options of
_get_verification_options. The PyJWT library is a dependency whose source
is not part of this repository, so its contract is taken from sections
4.2 and 4.3 of the design: the RS256 signature is checked first (step 5),
then the claims — issuer equals the configured issuer exactly, audience
equals the configured audience exactly, expiry passes when
exp + leeway >= now (inclusive leeway), and issued-at / not-before lie
within leeway of now where present. Claims whose check is listed for the
configured options are validated when present. This definition is the
issued-at / not-before part (spec section 4.2, check 4): each of the two
claims, where present, must not lie more than leeway in the future of
now; violations are reported as generic InvalidTokenError subclasses. -/
def jwt_decode_timing (tok : Token) (opts : VerificationOptions) (now : Int) :
    Except JwtError Claims :=
  match tok.payload.iat with
  | some i =>
    if now + opts.leeway < i then .error (JwtError.invalidToken "iat is in the future")
    else
      match tok.payload.nbf with
      | some n =>
        if now + opts.leeway < n then .error (JwtError.invalidToken "not yet valid (nbf)")
        else .ok tok.payload
      | Option.none => .ok tok.payload
  | Option.none =>
    match tok.payload.nbf with
    | some n =>
      if now + opts.leeway < n then .error (JwtError.invalidToken "not yet valid (nbf)")
      else .ok tok.payload
    | Option.none => .ok tok.payload

/-- Modelled from the spec: the full PyJWT jwt.decode check sequence —
RS256 signature first (design section 4.3, step 5), then exact issuer
match, exact audience match, and the inclusive-leeway expiry check
exp + leeway >= now (design section 4.2, checks 1-3), then the timing
window of jwt_decode_timing. On success the decoded payload is
returned. -/
def jwt_decode (tok : Token) (key : String) (opts : VerificationOptions) (now : Int) :
    Except JwtError Claims :=
  if !(tok.signedWith = key) then .error JwtError.invalidSignature
  else if !(tok.payload.iss = some opts.issuer) then .error JwtError.invalidIssuer
  else if !(tok.payload.aud = some opts.audience) then .error JwtError.invalidAudience
  else
    match tok.payload.exp with
    | some e =>
      if e + opts.leeway < now then .error JwtError.expiredSignature
      else jwt_decode_timing tok opts now
    | Option.none => jwt_decode_timing tok opts now

/-! ## verify_user -/

/-- The dictionary returned by verify_user, auth.py lines 219-224. -/
structure IdentityRecord where
  uid : String
  email : String
  email_verified : Bool
  auth_time : Option Int
  deriving Repr, DecidableEq

/-- Outcome of one verify_user call: result, final key-cache state, and
the number of network fetches performed during the call. -/
structure VerifyResult where
  result : Except PyError IdentityRecord
  cache : KeyCache
  fetches : Nat
  deriving Repr

/-- auth.py lines 184-224 with the verification options and the
email-verification flag passed in: decode (mapping each PyJWT exception
class to its AuthenticationError message, lines 190-199), then extract
sub/email/email_verified/auth_time with email_verified defaulting to
False when absent (line 204), reject a missing or empty sub, then a
missing or empty email, apply the email-verification policy
(lines 214-217), and build the identity record. -/
def finish_verification_core (opts : VerificationOptions) (requireEmailVerified : Bool)
    (now : Int) (tok : Token) (key : String) : Except PyError IdentityRecord :=
  match jwt_decode tok key opts now with
  | .error JwtError.expiredSignature => .error (.authenticationError "Token has expired")
  | .error JwtError.invalidIssuer => .error (.authenticationError "Token issuer is invalid")
  | .error JwtError.invalidAudience => .error (.authenticationError "Token audience is invalid")
  | .error JwtError.invalidSignature => .error (.authenticationError "Token signature is invalid")
  | .error (JwtError.invalidToken m) =>
    .error (.authenticationError ("Token validation failed: " ++ m))
  | .ok decoded =>
    match decoded.sub with
    | Option.none => .error (.authenticationError "Token missing sub (subject/user_id) claim")
    | some u =>
      if u = "" then .error (.authenticationError "Token missing sub (subject/user_id) claim")
      else
        match decoded.email with
        | Option.none => .error (.authenticationError "Token missing email claim")
        | some e =>
          if e = "" then .error (.authenticationError "Token missing email claim")
          else
            let ev := decoded.email_verified.getD false
            if requireEmailVerified && !ev then
              .error (.emailNotVerifiedError
                "Email verification is required but email is not verified")
            else
              .ok { uid := u, email := e, email_verified := ev,
                    auth_time := decoded.auth_time }

/-- The tail of verify_user over the spec-modelled configuration. -/
def finish_verification (cfg : AuthConfig) (now : Int) (tok : Token) (key : String) :
    Except PyError IdentityRecord :=
  finish_verification_core (get_verification_options cfg) cfg.require_email_verified now tok key

/-- verify_user, auth.py lines 121-224, over the spec-modelled
configuration. Steps in source order: reject an empty token string
(154-155); decode the header and require a non-empty kid (161-165, empty
string is falsy in Python); fetch the public keys (168); on a key-id miss
clear the module cache and fetch once more, failing with
AuthenticationError when the kid is still absent (170-178); then verify
and decode the token and shape the identity record (180-224). -/
def verify_user (w : World) (cfg : AuthConfig) (st : KeyCache) (token : RawToken) :
    VerifyResult :=
  if token.text = "" then
    { result := .error (.authenticationError "Token must be a non-empty string"),
      cache := st, fetches := 0 }
  else
    match token.parsed with
    | Option.none =>
      { result := .error (.authenticationError "Invalid token format"),
        cache := st, fetches := 0 }
    | some tok =>
      match tok.header.kid with
      | Option.none =>
        { result := .error (.authenticationError "Token header missing kid (key ID)"),
          cache := st, fetches := 0 }
      | some kid =>
        if kid = "" then
          { result := .error (.authenticationError "Token header missing kid (key ID)"),
            cache := st, fetches := 0 }
        else
          let g1 := get_google_public_keys w cfg st
          match g1.result with
          | .error e => { result := .error e, cache := g1.cache, fetches := g1.fetches }
          | .ok keys =>
            match lookupKey kid keys with
            | some key =>
              { result := finish_verification cfg w.now tok key,
                cache := g1.cache, fetches := g1.fetches }
            | Option.none =>
              let g2 := get_google_public_keys w cfg { entry := Option.none }
              match g2.result with
              | .error e =>
                { result := .error e, cache := g2.cache, fetches := g1.fetches + g2.fetches }
              | .ok keys2 =>
                match lookupKey kid keys2 with
                | Option.none =>
                  { result := .error (.authenticationError
                      ("Public key with ID " ++ kid ++ " not found in Google JWKS")),
                    cache := g2.cache, fetches := g1.fetches + g2.fetches }
                | some key =>
                  { result := finish_verification cfg w.now tok key,
                    cache := g2.cache, fetches := g1.fetches + g2.fetches }

/-- _get_verification_options over the configuration exactly as declared
in src/saas_core/config.py: lines 114, 115 and 117 of auth.py read
issuer_url, audience and jwt_leeway, none of which the src AuthConfig
declares, so the first access raises AttributeError. -/
def get_verification_options_src (cfg : AuthConfigSrc) : Except PyError VerificationOptions :=
  match cfg.getattr "issuer_url" with
  | .error e => .error e
  | .ok iv =>
    match cfg.getattr "audience" with
    | .error e => .error e
    | .ok av =>
      match cfg.getattr "jwt_leeway" with
      | .error e => .error e
      | .ok lv =>
        match iv, av, lv with
        | PyVal.str i, PyVal.str a, PyVal.intv l =>
          .ok { issuer := i, audience := a, leeway := l }
        | _, _, _ => .error (.typeError "verification options")

/-- verify_user over the configuration exactly as declared in
src/saas_core/config.py: identical control flow to verify_user, but every
read of an undeclared configuration attribute goes through getattr and
therefore raises AttributeError; the first such read is
config.jwks_cache_ttl at auth.py line 35, inside the first
get_google_public_keys call. -/
def verify_user_src (w : World) (cfg : AuthConfigSrc) (st : KeyCache) (token : RawToken) :
    VerifyResult :=
  if token.text = "" then
    { result := .error (.authenticationError "Token must be a non-empty string"),
      cache := st, fetches := 0 }
  else
    match token.parsed with
    | Option.none =>
      { result := .error (.authenticationError "Invalid token format"),
        cache := st, fetches := 0 }
    | some tok =>
      match tok.header.kid with
      | Option.none =>
        { result := .error (.authenticationError "Token header missing kid (key ID)"),
          cache := st, fetches := 0 }
      | some kid =>
        if kid = "" then
          { result := .error (.authenticationError "Token header missing kid (key ID)"),
            cache := st, fetches := 0 }
        else
          let g1 := get_google_public_keys_src w cfg st
          match g1.result with
          | .error e => { result := .error e, cache := g1.cache, fetches := g1.fetches }
          | .ok keys =>
            match lookupKey kid keys with
            | some key =>
              { result :=
                  (match get_verification_options_src cfg with
                   | .error e => .error e
                   | .ok opts =>
                     finish_verification_core opts cfg.require_email_verified w.now tok key),
                cache := g1.cache, fetches := g1.fetches }
            | Option.none =>
              let g2 := get_google_public_keys_src w cfg { entry := Option.none }
              match g2.result with
              | .error e =>
                { result := .error e, cache := g2.cache, fetches := g1.fetches + g2.fetches }
              | .ok keys2 =>
                match lookupKey kid keys2 with
                | Option.none =>
                  { result := .error (.authenticationError
                      ("Public key with ID " ++ kid ++ " not found in Google JWKS")),
                    cache := g2.cache, fetches := g1.fetches + g2.fetches }
                | some key =>
                  { result :=
                      (match get_verification_options_src cfg with
                       | .error e => .error e
                       | .ok opts =>
                         finish_verification_core opts cfg.require_email_verified w.now tok key),
                    cache := g2.cache, fetches := g1.fetches + g2.fetches }

/-- The key-resolution outcome of verify_user, auth.py lines 168-178:
the key found in the (possibly cached) key set, or, on a miss, in the set
fetched after the one forced cache clear; Option.none when resolution
fails either way. This is the KeyStore.resolve contract of the design,
written in terms of the embedded get_google_public_keys. -/
def resolve_after_retry (w : World) (cfg : AuthConfig) (st : KeyCache) (kid : String) :
    Option String :=
  match (get_google_public_keys w cfg st).result with
  | .error _ => Option.none
  | .ok keys =>
    match lookupKey kid keys with
    | some k => some k
    | Option.none =>
      match (get_google_public_keys w cfg { entry := Option.none }).result with
      | .error _ => Option.none
      | .ok keys2 => lookupKey kid keys2

theorem verify_user_resolved (w : World) (cfg : AuthConfig) (st : KeyCache)
    (raw : RawToken) (tok : Token) (kid key : String)
    (htext : ¬ raw.text = "") (hparse : raw.parsed = some tok)
    (hkid : tok.header.kid = some kid) (hkidne : ¬ kid = "")
    (hkey : resolve_after_retry w cfg st kid = some key) :
    (verify_user w cfg st raw).result = finish_verification cfg w.now tok key := by
  unfold verify_user
  rw [if_neg htext, hparse]
  simp only
  rw [hkid]
  simp only
  rw [if_neg hkidne]
  unfold resolve_after_retry at hkey
  rcases hg1 : (get_google_public_keys w cfg st).result with e | keys
  · rw [hg1] at hkey
    simp at hkey
  · rw [hg1] at hkey
    simp only at hkey
    rcases hl1 : lookupKey kid keys with _ | k1
    · rw [hl1] at hkey
      simp only at hkey
      rcases hg2 : (get_google_public_keys w cfg { entry := Option.none }).result with e2 | keys2
      · rw [hg2] at hkey
        simp at hkey
      · rw [hg2] at hkey
        simp only at hkey
        simp only [hg1, hl1, hg2, hkey]
    · rw [hl1] at hkey
      simp only [Option.some.injEq] at hkey
      subst hkey
      simp only [hg1, hl1]

theorem jwt_decode_ok (tok : Token) (key : String) (opts : VerificationOptions) (now : Int)
    (hsig : tok.signedWith = key)
    (hiss : tok.payload.iss = some opts.issuer)
    (haud : tok.payload.aud = some opts.audience)
    (hexp : ∀ e, tok.payload.exp = some e → now ≤ e + opts.leeway)
    (hiat : ∀ i, tok.payload.iat = some i → i ≤ now + opts.leeway)
    (hnbf : ∀ n, tok.payload.nbf = some n → n ≤ now + opts.leeway) :
    jwt_decode tok key opts now = .ok tok.payload := by
  have htiming : jwt_decode_timing tok opts now = .ok tok.payload := by
    unfold jwt_decode_timing
    rcases hi : tok.payload.iat with _ | i
    · rcases hn : tok.payload.nbf with _ | n
      · simp only
      · have := hnbf n hn
        simp only [if_neg (by omega : ¬ now + opts.leeway < n)]
    · have hiok := hiat i hi
      simp only [if_neg (by omega : ¬ now + opts.leeway < i)]
      rcases hn : tok.payload.nbf with _ | n
      · simp only
      · have := hnbf n hn
        simp only [if_neg (by omega : ¬ now + opts.leeway < n)]
  unfold jwt_decode
  rw [hsig, hiss, haud]
  simp only [decide_True, Bool.not_true, Bool.false_eq_true, if_false]
  rcases he : tok.payload.exp with _ | e
  · exact htiming
  · have := hexp e he
    simp only [if_neg (by omega : ¬ e + opts.leeway < now)]
    exact htiming

theorem finish_core_decoded (opts : VerificationOptions) (req : Bool) (now : Int)
    (tok : Token) (key u em : String)
    (hsig : tok.signedWith = key)
    (hiss : tok.payload.iss = some opts.issuer)
    (haud : tok.payload.aud = some opts.audience)
    (hexp : ∀ e, tok.payload.exp = some e → now ≤ e + opts.leeway)
    (hiat : ∀ i, tok.payload.iat = some i → i ≤ now + opts.leeway)
    (hnbf : ∀ n, tok.payload.nbf = some n → n ≤ now + opts.leeway)
    (hsub : tok.payload.sub = some u) (hu : ¬ u = "")
    (hemail : tok.payload.email = some em) (hem : ¬ em = "") :
    finish_verification_core opts req now tok key =
      (if req && !(tok.payload.email_verified.getD false) then
        .error (.emailNotVerifiedError "Email verification is required but email is not verified")
      else
        .ok { uid := u, email := em, email_verified := tok.payload.email_verified.getD false,
              auth_time := tok.payload.auth_time }) := by
  unfold finish_verification_core
  rw [jwt_decode_ok tok key opts now hsig hiss haud hexp hiat hnbf]
  simp only
  rw [hsub]
  simp only
  rw [if_neg hu, hemail]
  simp only
  rw [if_neg hem]

/-! ## Concrete fixtures (the scenario of spec section 8) -/

/-- Configuration of the concrete scenario: issuer
https://idp.example/proj-1, audience proj-1, TTL 3600, leeway 60,
email verification required. -/
def exCfg : AuthConfig :=
  { issuer_url := "https://idp.example/proj-1", audience := "proj-1" }

/-- The valid token payload of the concrete scenario at now = 1000:
iat = now - 60, exp = now + 3600, no auth_time claim. -/
def exClaims : Claims :=
  { sub := some "u1", email := some "a@b.com", email_verified := some true,
    iss := some "https://idp.example/proj-1", aud := some "proj-1",
    iat := some 940, exp := some 4600 }

/-- The valid token, signed with the key published under id k1. -/
def exToken : Token :=
  { header := { kid := some "k1" }, payload := exClaims, signedWith := "PEM-k1" }

/-- The raw string form of the valid token. -/
def exRaw : RawToken := { text := "jwt-k1", parsed := some exToken }

/-- The world of the concrete scenario: now = 1000 and a JWKS endpoint
publishing the certificate of key k1. -/
def exWorld : World :=
  { now := 1000, jwks := .ok [("k1", Cert.valid "PEM-k1")] }

/-- Claim C4: for every token carrying a valid RS256 signature under a
key id that the KeyStore resolves, with issuer and audience equal to the
configured values, timing claims within leeway of now, non-empty sub and
email, and email_verified true (or the email-verification policy
disabled), verify_user returns a record whose uid, email, email_verified
and auth_time fields equal the sub, email, email_verified and auth_time
claims of the token exactly — in particular auth_time is None exactly
when the claim is absent. -/
theorem C4_valid_token_identity (w : World) (cfg : AuthConfig) (st : KeyCache)
    (raw : RawToken) (tok : Token) (kid key u em : String) (ev : Bool)
    (htext : ¬ raw.text = "") (hparse : raw.parsed = some tok)
    (hkid : tok.header.kid = some kid) (hkidne : ¬ kid = "")
    (hkey : resolve_after_retry w cfg st kid = some key)
    (hsig : tok.signedWith = key)
    (hiss : tok.payload.iss = some cfg.issuer_url)
    (haud : tok.payload.aud = some cfg.audience)
    (hexp : ∀ e, tok.payload.exp = some e → w.now ≤ e + cfg.jwt_leeway)
    (hiat : ∀ i, tok.payload.iat = some i → i ≤ w.now + cfg.jwt_leeway)
    (hnbf : ∀ n, tok.payload.nbf = some n → n ≤ w.now + cfg.jwt_leeway)
    (hsub : tok.payload.sub = some u) (hu : ¬ u = "")
    (hemail : tok.payload.email = some em) (hem : ¬ em = "")
    (hev : tok.payload.email_verified = some ev)
    (hpol : ev = true ∨ cfg.require_email_verified = false) :
    (verify_user w cfg st raw).result =
      .ok { uid := u, email := em, email_verified := ev,
            auth_time := tok.payload.auth_time } := by
  rw [verify_user_resolved w cfg st raw tok kid key htext hparse hkid hkidne hkey]
  unfold finish_verification
  rw [finish_core_decoded _ _ _ _ _ u em hsig hiss haud hexp hiat hnbf hsub hu hemail hem]
  rw [hev]
  simp only [Option.getD_some]
  rcases hpol with h | h
  · subst h
    simp
  · rw [h]
    simp

/-- Witness for C4: the concrete scenario of spec section 8, starting
from an empty cache, returns exactly the identity record
(u1, a@b.com, true, None). -/
theorem C4_valid_token_identity_witness :
    (verify_user exWorld exCfg { entry := Option.none } exRaw).result =
      .ok { uid := "u1", email := "a@b.com", email_verified := true,
            auth_time := Option.none } := by
  have h := C4_valid_token_identity exWorld exCfg { entry := Option.none } exRaw exToken
    "k1" "PEM-k1" "u1" "a@b.com" true
    (by decide) rfl rfl (by decide) (by decide)
    rfl rfl rfl
    (by intro e he; injection he with h2; subst h2; decide)
    (by intro i hi; injection hi with h2; subst h2; decide)
    (by intro n hn; exact absurd hn (by simp [exToken, exClaims]))
    rfl (by decide) rfl (by decide) rfl (Or.inl rfl)
  exact h

/-- The valid payload with email_verified asserted false. -/
def exClaimsEvFalse : Claims := { exClaims with email_verified := some false }

/-- The valid token with email_verified false, same key k1. -/
def exTokenEvFalse : Token :=
  { header := { kid := some "k1" }, payload := exClaimsEvFalse, signedWith := "PEM-k1" }

/-- Raw form of the email_verified-false token. -/
def exRawEvFalse : RawToken := { text := "jwt-k1-unverified", parsed := some exTokenEvFalse }

/-- The valid payload with no email_verified claim at all. -/
def exClaimsEvAbsent : Claims := { exClaims with email_verified := Option.none }

/-- The valid token lacking the email_verified claim, same key k1. -/
def exTokenEvAbsent : Token :=
  { header := { kid := some "k1" }, payload := exClaimsEvAbsent, signedWith := "PEM-k1" }

/-- Raw form of the token lacking the email_verified claim. -/
def exRawEvAbsent : RawToken := { text := "jwt-k1-no-ev", parsed := some exTokenEvAbsent }

/-- The scenario configuration with the email-verification policy
disabled. -/
def exCfgNoEmail : AuthConfig := { exCfg with require_email_verified := false }

/-- Claim C6: for every token that passes signature and claim validation
but whose email_verified claim is false, verify_user raises
EmailNotVerifiedError — a distinguished subtype of AuthenticationError —
when the email-verification requirement is enabled, and returns a record
with email_verified false when the requirement is disabled. -/
theorem C6_email_verification_policy (w : World) (cfg : AuthConfig) (st : KeyCache)
    (raw : RawToken) (tok : Token) (kid key u em : String)
    (htext : ¬ raw.text = "") (hparse : raw.parsed = some tok)
    (hkid : tok.header.kid = some kid) (hkidne : ¬ kid = "")
    (hkey : resolve_after_retry w cfg st kid = some key)
    (hsig : tok.signedWith = key)
    (hiss : tok.payload.iss = some cfg.issuer_url)
    (haud : tok.payload.aud = some cfg.audience)
    (hexp : ∀ e, tok.payload.exp = some e → w.now ≤ e + cfg.jwt_leeway)
    (hiat : ∀ i, tok.payload.iat = some i → i ≤ w.now + cfg.jwt_leeway)
    (hnbf : ∀ n, tok.payload.nbf = some n → n ≤ w.now + cfg.jwt_leeway)
    (hsub : tok.payload.sub = some u) (hu : ¬ u = "")
    (hemail : tok.payload.email = some em) (hem : ¬ em = "")
    (hev : tok.payload.email_verified = some false) :
    (cfg.require_email_verified = true →
      (verify_user w cfg st raw).result =
        .error (.emailNotVerifiedError
          "Email verification is required but email is not verified") ∧
      PyError.isAuthenticationFailure
        (.emailNotVerifiedError
          "Email verification is required but email is not verified") = true) ∧
    (cfg.require_email_verified = false →
      (verify_user w cfg st raw).result =
        .ok { uid := u, email := em, email_verified := false,
              auth_time := tok.payload.auth_time }) := by
  have hmain := verify_user_resolved w cfg st raw tok kid key htext hparse hkid hkidne hkey
  have hfin := finish_core_decoded (get_verification_options cfg) cfg.require_email_verified
    w.now tok key u em hsig hiss haud hexp hiat hnbf hsub hu hemail hem
  rw [hev] at hfin
  simp only [Option.getD_some, Bool.not_false, Bool.and_true] at hfin
  constructor
  · intro hreq
    rw [hreq] at hfin
    constructor
    · rw [hmain]
      unfold finish_verification
      rw [hreq]
      simpa using hfin
    · rfl
  · intro hreq
    rw [hreq] at hfin
    rw [hmain]
    unfold finish_verification
    rw [hreq]
    simpa using hfin

/-- Witness for C6: the concrete email_verified-false token is rejected
with EmailNotVerifiedError under the default configuration and accepted
with email_verified false when the policy is disabled. -/
theorem C6_email_verification_policy_witness :
    (verify_user exWorld exCfg { entry := Option.none } exRawEvFalse).result =
      .error (.emailNotVerifiedError
        "Email verification is required but email is not verified") ∧
    (verify_user exWorld exCfgNoEmail { entry := Option.none } exRawEvFalse).result =
      .ok { uid := "u1", email := "a@b.com", email_verified := false,
            auth_time := Option.none } := by
  constructor
  · exact ((C6_email_verification_policy exWorld exCfg { entry := Option.none } exRawEvFalse
      exTokenEvFalse "k1" "PEM-k1" "u1" "a@b.com"
      (by decide) rfl rfl (by decide) (by decide) rfl rfl rfl
      (by intro e he; injection he with h2; subst h2; decide)
      (by intro i hi; injection hi with h2; subst h2; decide)
      (by intro n hn; exact absurd hn (by simp [exTokenEvFalse, exClaimsEvFalse, exClaims]))
      rfl (by decide) rfl (by decide) rfl).1 rfl).1
  · exact (C6_email_verification_policy exWorld exCfgNoEmail { entry := Option.none } exRawEvFalse
      exTokenEvFalse "k1" "PEM-k1" "u1" "a@b.com"
      (by decide) rfl rfl (by decide) (by decide) rfl rfl rfl
      (by intro e he; injection he with h2; subst h2; decide)
      (by intro i hi; injection hi with h2; subst h2; decide)
      (by intro n hn; exact absurd hn (by simp [exTokenEvFalse, exClaimsEvFalse, exClaims]))
      rfl (by decide) rfl (by decide) rfl).2 rfl

/-- Claim C10: for every token whose payload lacks the email_verified
claim entirely (and otherwise passes signature and claim validation),
verify_user treats email_verified as false: with the requirement enabled
it rejects the token with EmailNotVerifiedError, and with the requirement
disabled the returned record has email_verified false. -/
theorem C10_absent_email_verified_is_false (w : World) (cfg : AuthConfig) (st : KeyCache)
    (raw : RawToken) (tok : Token) (kid key u em : String)
    (htext : ¬ raw.text = "") (hparse : raw.parsed = some tok)
    (hkid : tok.header.kid = some kid) (hkidne : ¬ kid = "")
    (hkey : resolve_after_retry w cfg st kid = some key)
    (hsig : tok.signedWith = key)
    (hiss : tok.payload.iss = some cfg.issuer_url)
    (haud : tok.payload.aud = some cfg.audience)
    (hexp : ∀ e, tok.payload.exp = some e → w.now ≤ e + cfg.jwt_leeway)
    (hiat : ∀ i, tok.payload.iat = some i → i ≤ w.now + cfg.jwt_leeway)
    (hnbf : ∀ n, tok.payload.nbf = some n → n ≤ w.now + cfg.jwt_leeway)
    (hsub : tok.payload.sub = some u) (hu : ¬ u = "")
    (hemail : tok.payload.email = some em) (hem : ¬ em = "")
    (hev : tok.payload.email_verified = Option.none) :
    (cfg.require_email_verified = true →
      (verify_user w cfg st raw).result =
        .error (.emailNotVerifiedError
          "Email verification is required but email is not verified")) ∧
    (cfg.require_email_verified = false →
      (verify_user w cfg st raw).result =
        .ok { uid := u, email := em, email_verified := false,
              auth_time := tok.payload.auth_time }) := by
  have hmain := verify_user_resolved w cfg st raw tok kid key htext hparse hkid hkidne hkey
  have hfin := finish_core_decoded (get_verification_options cfg) cfg.require_email_verified
    w.now tok key u em hsig hiss haud hexp hiat hnbf hsub hu hemail hem
  rw [hev] at hfin
  simp only [Option.getD_none, Bool.not_false, Bool.and_true] at hfin
  constructor
  · intro hreq
    rw [hreq] at hfin
    rw [hmain]
    unfold finish_verification
    rw [hreq]
    simpa using hfin
  · intro hreq
    rw [hreq] at hfin
    rw [hmain]
    unfold finish_verification
    rw [hreq]
    simpa using hfin

/-- Witness for C10: the concrete token with no email_verified claim is
rejected with EmailNotVerifiedError under the default configuration, and
accepted with email_verified false when the policy is disabled. -/
theorem C10_absent_email_verified_is_false_witness :
    (verify_user exWorld exCfg { entry := Option.none } exRawEvAbsent).result =
      .error (.emailNotVerifiedError
        "Email verification is required but email is not verified") ∧
    (verify_user exWorld exCfgNoEmail { entry := Option.none } exRawEvAbsent).result =
      .ok { uid := "u1", email := "a@b.com", email_verified := false,
            auth_time := Option.none } := by
  constructor
  · exact (C10_absent_email_verified_is_false exWorld exCfg { entry := Option.none } exRawEvAbsent
      exTokenEvAbsent "k1" "PEM-k1" "u1" "a@b.com"
      (by decide) rfl rfl (by decide) (by decide) rfl rfl rfl
      (by intro e he; injection he with h2; subst h2; decide)
      (by intro i hi; injection hi with h2; subst h2; decide)
      (by intro n hn; exact absurd hn (by simp [exTokenEvAbsent, exClaimsEvAbsent, exClaims]))
      rfl (by decide) rfl (by decide) rfl).1 rfl
  · exact (C10_absent_email_verified_is_false exWorld exCfgNoEmail { entry := Option.none }
      exRawEvAbsent exTokenEvAbsent "k1" "PEM-k1" "u1" "a@b.com"
      (by decide) rfl rfl (by decide) (by decide) rfl rfl rfl
      (by intro e he; injection he with h2; subst h2; decide)
      (by intro i hi; injection hi with h2; subst h2; decide)
      (by intro n hn; exact absurd hn (by simp [exTokenEvAbsent, exClaimsEvAbsent, exClaims]))
      rfl (by decide) rfl (by decide) rfl).2 rfl

theorem jwt_decode_expired (tok : Token) (key : String) (opts : VerificationOptions)
    (now e : Int)
    (hsig : tok.signedWith = key)
    (hiss : tok.payload.iss = some opts.issuer)
    (haud : tok.payload.aud = some opts.audience)
    (he : tok.payload.exp = some e) (hlt : e + opts.leeway < now) :
    jwt_decode tok key opts now = .error JwtError.expiredSignature := by
  unfold jwt_decode
  rw [hsig, hiss, haud]
  simp only [decide_True, Bool.not_true, Bool.false_eq_true, if_false]
  rw [he]
  simp only [if_pos hlt]

/-- The scenario payload with the expiry claim replaced by e. -/
def exClaimsExp (e : Int) : Claims := { exClaims with exp := some e }

/-- The scenario token with expiry e, signed with key k1. -/
def exTokenExp (e : Int) : Token :=
  { header := { kid := some "k1" }, payload := exClaimsExp e, signedWith := "PEM-k1" }

/-- Raw form of the scenario token with expiry e. -/
def exRawExp (e : Int) : RawToken := { text := "jwt-k1-exp", parsed := some (exTokenExp e) }

/-- Claim C8: expiry is checked with inclusive leeway. For a token that
is otherwise valid and carries exp = e, verify_user succeeds when
e + leeway >= now and fails with the expired AuthenticationError when
e + leeway < now; instantiating e = now - leeway - 1 and
e = now - leeway + 1 gives the two boundary cases of the claim. -/
theorem C8_expiry_inclusive_leeway (w : World) (cfg : AuthConfig) (st : KeyCache)
    (raw : RawToken) (tok : Token) (kid key u em : String) (e : Int)
    (htext : ¬ raw.text = "") (hparse : raw.parsed = some tok)
    (hkid : tok.header.kid = some kid) (hkidne : ¬ kid = "")
    (hkey : resolve_after_retry w cfg st kid = some key)
    (hsig : tok.signedWith = key)
    (hiss : tok.payload.iss = some cfg.issuer_url)
    (haud : tok.payload.aud = some cfg.audience)
    (hexp : tok.payload.exp = some e)
    (hiat : ∀ i, tok.payload.iat = some i → i ≤ w.now + cfg.jwt_leeway)
    (hnbf : ∀ n, tok.payload.nbf = some n → n ≤ w.now + cfg.jwt_leeway)
    (hsub : tok.payload.sub = some u) (hu : ¬ u = "")
    (hemail : tok.payload.email = some em) (hem : ¬ em = "")
    (hev : tok.payload.email_verified = some true) :
    (w.now ≤ e + cfg.jwt_leeway →
      (verify_user w cfg st raw).result =
        .ok { uid := u, email := em, email_verified := true,
              auth_time := tok.payload.auth_time }) ∧
    (e + cfg.jwt_leeway < w.now →
      (verify_user w cfg st raw).result =
        .error (.authenticationError "Token has expired")) := by
  constructor
  · intro hle
    exact C4_valid_token_identity w cfg st raw tok kid key u em true
      htext hparse hkid hkidne hkey hsig hiss haud
      (by intro x hx; rw [hexp] at hx; injection hx with h2; omega)
      hiat hnbf hsub hu hemail hem hev (Or.inl rfl)
  · intro hlt
    rw [verify_user_resolved w cfg st raw tok kid key htext hparse hkid hkidne hkey]
    unfold finish_verification finish_verification_core
    rw [jwt_decode_expired tok key (get_verification_options cfg) w.now e hsig hiss haud hexp hlt]

/-- Witness for C8: in the concrete scenario (now = 1000, leeway = 60) a
token with exp = 939 = now - leeway - 1 is rejected as expired and a
token with exp = 941 = now - leeway + 1 is accepted. -/
theorem C8_expiry_inclusive_leeway_witness :
    (verify_user exWorld exCfg { entry := Option.none } (exRawExp 939)).result =
      .error (.authenticationError "Token has expired") ∧
    (verify_user exWorld exCfg { entry := Option.none } (exRawExp 941)).result =
      .ok { uid := "u1", email := "a@b.com", email_verified := true,
            auth_time := Option.none } := by
  constructor
  · exact (C8_expiry_inclusive_leeway exWorld exCfg { entry := Option.none } (exRawExp 939)
      (exTokenExp 939) "k1" "PEM-k1" "u1" "a@b.com" 939
      (by decide) rfl rfl (by decide) (by decide) rfl rfl rfl rfl
      (by intro i hi; injection hi with h2; subst h2; decide)
      (by intro n hn; exact absurd hn (by simp [exTokenExp, exClaimsExp, exClaims]))
      rfl (by decide) rfl (by decide) rfl).2 (by decide)
  · exact (C8_expiry_inclusive_leeway exWorld exCfg { entry := Option.none } (exRawExp 941)
      (exTokenExp 941) "k1" "PEM-k1" "u1" "a@b.com" 941
      (by decide) rfl rfl (by decide) (by decide) rfl rfl rfl rfl
      (by intro i hi; injection hi with h2; subst h2; decide)
      (by intro n hn; exact absurd hn (by simp [exTokenExp, exClaimsExp, exClaims]))
      rfl (by decide) rfl (by decide) rfl).1 (by decide)

/-- A fresh (unexpired) cache whose key set predates the rotation and
does not contain k1. -/
def exStaleCache : KeyCache :=
  { entry := some { keys := [("k-old", "PEM-old")], timestamp := 500 } }

/-- A world whose JWKS endpoint no longer publishes k1 either. -/
def exWorldNoK1 : World :=
  { now := 1000, jwks := .ok [("k2", Cert.valid "PEM-k2")] }

/-- Claim C7: when the token's key id is absent from the current cached
key set, verify_user performs exactly one forced cache-clear-and-refresh
(one network fetch in this scenario): if the key id is in the freshly
fetched set, verification proceeds with that key — and can succeed with
no caller retry — and the cache is atomically replaced by the fresh set;
if it is still absent, verify_user fails with the key-not-found
AuthenticationError, still after that single refresh. -/
theorem C7_rotation_single_refresh (w : World) (cfg : AuthConfig) (cd : CacheEntry)
    (raw : RawToken) (tok : Token) (kid : String) (certs : List (String × Cert))
    (htext : ¬ raw.text = "") (hparse : raw.parsed = some tok)
    (hkid : tok.header.kid = some kid) (hkidne : ¬ kid = "")
    (hfresh : w.now - cd.timestamp < cfg.jwks_cache_ttl)
    (hmiss : lookupKey kid cd.keys = Option.none)
    (hjwks : w.jwks = .ok certs) :
    (verify_user w cfg { entry := some cd } raw).fetches = 1 ∧
    (∀ key, lookupKey kid (convertCerts certs) = some key →
      (verify_user w cfg { entry := some cd } raw).result =
        finish_verification cfg w.now tok key ∧
      (verify_user w cfg { entry := some cd } raw).cache =
        { entry := some { keys := convertCerts certs, timestamp := w.now } }) ∧
    (lookupKey kid (convertCerts certs) = Option.none →
      (verify_user w cfg { entry := some cd } raw).result =
        .error (.authenticationError
          ("Public key with ID " ++ kid ++ " not found in Google JWKS"))) := by
  have hg1 : get_google_public_keys w cfg { entry := some cd } =
      { result := .ok cd.keys, cache := { entry := some cd }, fetches := 0 } := by
    unfold get_google_public_keys get_google_public_keys_core
    simp only [if_pos hfresh]
  have hg2 : get_google_public_keys w cfg { entry := Option.none } =
      { result := .ok (convertCerts certs),
        cache := { entry := some { keys := convertCerts certs, timestamp := w.now } },
        fetches := 1 } := by
    unfold get_google_public_keys get_google_public_keys_core
    rw [hjwks]
  have hnorm : verify_user w cfg { entry := some cd } raw =
      (match lookupKey kid (convertCerts certs) with
       | some key =>
         { result := finish_verification cfg w.now tok key,
           cache := { entry := some { keys := convertCerts certs, timestamp := w.now } },
           fetches := 1 }
       | Option.none =>
         { result := .error (.authenticationError
             ("Public key with ID " ++ kid ++ " not found in Google JWKS")),
           cache := { entry := some { keys := convertCerts certs, timestamp := w.now } },
           fetches := 1 }) := by
    unfold verify_user
    rw [if_neg htext, hparse]
    simp only
    rw [hkid]
    simp only
    rw [if_neg hkidne, hg1]
    simp only
    rw [hmiss]
    simp only
    rw [hg2]
    simp only
    rcases hl : lookupKey kid (convertCerts certs) with _ | key <;> rfl
  refine ⟨?_, ?_, ?_⟩
  · rw [hnorm]
    rcases hl : lookupKey kid (convertCerts certs) with _ | key <;> simp
  · intro key hl
    rw [hnorm, hl]
    exact ⟨rfl, rfl⟩
  · intro hl
    rw [hnorm, hl]

/-- Witness for C7: with a fresh cache that predates the rotation of k1,
the valid k1 token verifies after exactly one refresh when the endpoint
publishes k1, and fails with the key-not-found AuthenticationError after
that one refresh when the endpoint does not. -/
theorem C7_rotation_single_refresh_witness :
    (verify_user exWorld exCfg exStaleCache exRaw).fetches = 1 ∧
    (verify_user exWorld exCfg exStaleCache exRaw).result =
      .ok { uid := "u1", email := "a@b.com", email_verified := true,
            auth_time := Option.none } ∧
    (verify_user exWorldNoK1 exCfg exStaleCache exRaw).result =
      .error (.authenticationError "Public key with ID k1 not found in Google JWKS") := by
  refine ⟨?_, ?_, ?_⟩
  · exact (C7_rotation_single_refresh exWorld exCfg
      { keys := [("k-old", "PEM-old")], timestamp := 500 } exRaw exToken "k1"
      [("k1", Cert.valid "PEM-k1")]
      (by decide) rfl rfl (by decide) (by decide) (by decide) rfl).1
  · have h := ((C7_rotation_single_refresh exWorld exCfg
      { keys := [("k-old", "PEM-old")], timestamp := 500 } exRaw exToken "k1"
      [("k1", Cert.valid "PEM-k1")]
      (by decide) rfl rfl (by decide) (by decide) (by decide) rfl).2.1) "PEM-k1" rfl
    show (verify_user exWorld exCfg
      { entry := some { keys := [("k-old", "PEM-old")], timestamp := 500 } } exRaw).result = _
    rw [h.1]
    rfl
  · exact ((C7_rotation_single_refresh exWorldNoK1 exCfg
      { keys := [("k-old", "PEM-old")], timestamp := 500 } exRaw exToken "k1"
      [("k2", Cert.valid "PEM-k2")]
      (by decide) rfl rfl (by decide) (by decide) (by decide) rfl).2.2) (by decide)

/-- Claim C9: verify_user is idempotent over unchanged cache and
configuration. If a first call from an empty cache returns an identity
record, leaving cache st1 after n1 fetches, then a second call in the
same world on st1 returns the identical record, leaves the cache
unchanged, and performs no network fetch; moreover the first call
performed exactly one fetch. -/
theorem C9_idempotent_second_call_cached (w : World) (cfg : AuthConfig)
    (raw : RawToken) (tok : Token) (kid : String) (r : IdentityRecord)
    (st1 : KeyCache) (n1 : Nat)
    (htext : ¬ raw.text = "") (hparse : raw.parsed = some tok)
    (hkid : tok.header.kid = some kid) (hkidne : ¬ kid = "")
    (httl : 0 < cfg.jwks_cache_ttl)
    (hfirst : verify_user w cfg { entry := Option.none } raw =
      { result := .ok r, cache := st1, fetches := n1 }) :
    verify_user w cfg st1 raw =
      { result := .ok r, cache := st1, fetches := 0 } ∧ n1 = 1 := by
  unfold verify_user at hfirst
  rw [if_neg htext, hparse] at hfirst
  simp only at hfirst
  rw [hkid] at hfirst
  simp only at hfirst
  rw [if_neg hkidne] at hfirst
  rcases hjw : w.jwks with errstr | certs
  · have hg : get_google_public_keys w cfg { entry := Option.none } =
        { result := .error (.authenticationError
            ("Failed to fetch Google public keys: " ++ errstr)),
          cache := { entry := Option.none }, fetches := 1 } := by
      unfold get_google_public_keys get_google_public_keys_core
      rw [hjw]
    rw [hg] at hfirst
    simp at hfirst
  · have hg : get_google_public_keys w cfg { entry := Option.none } =
        { result := .ok (convertCerts certs),
          cache := { entry := some { keys := convertCerts certs, timestamp := w.now } },
          fetches := 1 } := by
      unfold get_google_public_keys get_google_public_keys_core
      rw [hjw]
    rw [hg] at hfirst
    simp only at hfirst
    rcases hl : lookupKey kid (convertCerts certs) with _ | key
    · rw [hl] at hfirst
      simp at hfirst
    · rw [hl] at hfirst
      simp only at hfirst
      have hres : finish_verification cfg w.now tok key = Except.ok r :=
        congrArg VerifyResult.result hfirst
      have hcache :
          ({ entry := some { keys := convertCerts certs, timestamp := w.now } } : KeyCache)
            = st1 :=
        congrArg VerifyResult.cache hfirst
      have hn : n1 = 1 := (congrArg VerifyResult.fetches hfirst).symm
      refine ⟨?_, hn⟩
      unfold verify_user
      rw [if_neg htext, hparse]
      simp only
      rw [hkid]
      simp only
      rw [if_neg hkidne]
      have hg2 : get_google_public_keys w cfg st1 =
          { result := .ok (convertCerts certs), cache := st1, fetches := 0 } := by
        rw [← hcache]
        unfold get_google_public_keys get_google_public_keys_core
        simp only
        rw [if_pos (by omega : w.now - w.now < cfg.jwks_cache_ttl)]
      rw [hg2]
      simp only
      rw [hl]
      simp only
      rw [hres]

/-- The cache state left behind by a successful first call of the
concrete scenario: the fetched key set for k1, stamped at now = 1000. -/
def exPopulatedCache : KeyCache :=
  { entry := some { keys := [("k1", "PEM-k1")], timestamp := 1000 } }

/-- Witness for C9: in the concrete scenario the first call from an empty
cache returns the record with one fetch and leaves exPopulatedCache; the
second call on that cache returns the identical record with zero
fetches. -/
theorem C9_idempotent_second_call_cached_witness :
    verify_user exWorld exCfg exPopulatedCache exRaw =
      { result := .ok { uid := "u1", email := "a@b.com", email_verified := true,
                        auth_time := Option.none },
        cache := exPopulatedCache, fetches := 0 } := by
  have h := C9_idempotent_second_call_cached exWorld exCfg exRaw exToken "k1"
    { uid := "u1", email := "a@b.com", email_verified := true, auth_time := Option.none }
    exPopulatedCache 1
    (by decide) rfl rfl (by decide) (by decide) (by rfl)
  exact h.1

/-- Claim C1 (code bug): the spec, the docstring of verify_user
(auth.py lines 143-146) and the tests all promise that verify_user
raises only ConfigurationError, AuthenticationError or
EmailNotVerifiedError, but with the configuration exactly as declared in
src/saas_core/config.py a structurally valid token reaches auth.py
line 35, where reading the undeclared attribute jwks_cache_ttl raises
AttributeError — an error outside the taxonomy. -/
theorem C1_attributeError_escapes_verify :
    (verify_user_src exWorld { google_project_id := some "test-project-12345" }
        { entry := Option.none } exRaw).result =
      .error (.attributeError "jwks_cache_ttl") ∧
    PyError.isTaxonomyKind (.attributeError "jwks_cache_ttl") = false := by
  constructor
  · rfl
  · rfl

/-- Claim C2 (code bug): a freshly constructed source configuration does
default require_email_verified to true, but the cache-TTL and leeway
fields do not exist on it — reading either raises AttributeError — while
the spec-modelled configuration carries the intended defaults: TTL 3600
(positive) and leeway 60 (non-negative) with the email-verification
requirement enabled. -/
theorem C2_default_config_fields :
    (({ google_project_id := some "proj-1" } : AuthConfigSrc).require_email_verified = true ∧
     AuthConfigSrc.getattr { google_project_id := some "proj-1" } "jwks_cache_ttl" =
       .error (.attributeError "jwks_cache_ttl") ∧
     AuthConfigSrc.getattr { google_project_id := some "proj-1" } "jwt_leeway" =
       .error (.attributeError "jwt_leeway")) ∧
    (exCfg.jwks_cache_ttl = 3600 ∧ exCfg.jwt_leeway = 60 ∧
     exCfg.require_email_verified = true ∧
     0 < exCfg.jwks_cache_ttl ∧ 0 ≤ exCfg.jwt_leeway) := by
  constructor
  · exact ⟨rfl, rfl, rfl⟩
  · refine ⟨rfl, rfl, rfl, ?_, ?_⟩ <;> decide

/-- Counterexample to claim C3 as stated: setting two
credential-acquisition modes at once — a credentials file path and an
ambient project id — does not make construction fail: model_post_init
(config.py lines 83-91) only rejects the case where none of the three is
set, so construction succeeds with both modes present. -/
theorem C3_two_modes_construct_succeeds :
    AuthConfig.construct (some "/etc/creds.json") Option.none (some "proj-1") true =
      .ok { firebase_credentials_path := some "/etc/creds.json",
            firebase_credentials_json := Option.none,
            google_project_id := some "proj-1",
            require_email_verified := true } := by
  rfl

/-- Claim C3 amended: construction of the configuration succeeds iff at
least one of the three credential-acquisition modes is set to a truthy
(non-empty) value and the inline credentials JSON, when supplied, is
valid JSON; when no mode is set it fails with ConfigurationError. Two or
three modes set simultaneously are accepted, not rejected. -/
theorem C3_amended_at_least_one_mode (path : Option String) (js : Option JsonStr)
    (pid : Option String) (req : Bool) :
    ((∃ c, AuthConfig.construct path js pid req = .ok c) ↔
      ((∀ j, js = some j → j.valid = true) ∧
       (optStrTruthy path = true ∨ optJsonTruthy js = true ∨ optStrTruthy pid = true))) ∧
    ((∀ j, js = some j → j.valid = true) →
      optStrTruthy path = false → optJsonTruthy js = false → optStrTruthy pid = false →
      AuthConfig.construct path js pid req = .error (.configurationError
        "One of the following must be set: SAAS_CORE_FIREBASE_CREDENTIALS_PATH, SAAS_CORE_FIREBASE_CREDENTIALS_JSON, or SAAS_CORE_GOOGLE_PROJECT_ID")) := by
  rcases js with _ | j
  · by_cases hp : optStrTruthy path = true <;> by_cases hd : optStrTruthy pid = true <;>
      simp_all [AuthConfig.construct, optJsonTruthy]
  · by_cases hv : j.valid = true <;> by_cases hp : optStrTruthy path = true <;>
      by_cases hj : j.raw = "" <;> by_cases hd : optStrTruthy pid = true <;>
      simp_all [AuthConfig.construct, optJsonTruthy]

/-- Witness for the amended C3: with no credential mode set construction
fails with ConfigurationError, and with only the file-path mode set it
succeeds. -/
theorem C3_amended_at_least_one_mode_witness :
    (AuthConfig.construct Option.none Option.none Option.none true =
      .error (.configurationError
        "One of the following must be set: SAAS_CORE_FIREBASE_CREDENTIALS_PATH, SAAS_CORE_FIREBASE_CREDENTIALS_JSON, or SAAS_CORE_GOOGLE_PROJECT_ID")) ∧
    (∃ c, AuthConfig.construct (some "/etc/creds.json") Option.none Option.none true = .ok c) := by
  constructor
  · exact (C3_amended_at_least_one_mode Option.none Option.none Option.none true).2
      (by intro j h; cases h) rfl rfl rfl
  · exact (C3_amended_at_least_one_mode (some "/etc/creds.json") Option.none Option.none
      true).1.mpr ⟨(by intro j h; cases h), Or.inl rfl⟩

end SaasCore
